import Mathlib

/-!
Shallow embedding of the `blinky` render client (src/src/client.rs).

The client is a single-threaded, event-driven wgpu bootstrap.  We embed the
state the claims reason about: the exit flag, the surface configuration and
the color-cycle counter.  Time-valued fields of the Rust struct
(`prev_update`, `frame_target`, `frame_time` — `Instant`/`Duration` wall-clock
values) are real-time state outside the embedding; `update`'s elapsed-time
computation is dead code (the `dt` binding is unused), so `update`'s effect on
the embedded state is the identity plus the possible `event_loop.exit()` call,
which we return as a Bool.  The command encoder is a GPU-side opaque handle;
its take-and-replace dance in `draw` has no observable effect on embedded
state, and the GPU-facing steps of `draw` are recorded as an explicit trace of
operations instead.  All integer fields are `u32` in the source; every
arithmetic operation the claims touch stays far below `2^32`, and the single
addition `self.color + 1` is only ever applied to values `< 3` in reachable
states (and `≤ 3` in the claims), so plain `Nat` arithmetic coincides with the
machine arithmetic on every input considered here.
-/

/-- Embeds `wgpu::Color` (four `f64` channels).  All colors this program
constructs have channels exactly `0.0` or `1.0`, which `f64` represents
exactly and which are never operated on arithmetically, so exact rational
channels are a faithful embedding. -/
structure Color where
  r : ℚ
  g : ℚ
  b : ℚ
  a : ℚ
deriving DecidableEq, Repr

/-- Embeds `wgpu::TextureFormat` abstractly: a tag distinguishing formats and
the result of the `is_srgb()` predicate. -/
structure TextureFormat where
  tag : Nat
  srgb : Bool
deriving DecidableEq, Repr

/-- Embeds `wgpu::PresentMode`; only `AutoVsync` occurs in the program. -/
inductive PresentMode where
  | autoVsync
  | other (tag : Nat)
deriving DecidableEq, Repr

/-- Embeds `wgpu::TextureUsages`; only `RENDER_ATTACHMENT` occurs. -/
inductive TextureUsages where
  | renderAttachment
  | other (tag : Nat)
deriving DecidableEq, Repr

/-- Embeds `wgpu::CompositeAlphaMode` abstractly as a tag. -/
abbrev AlphaMode := Nat

/-- Embeds `winit::dpi::PhysicalSize<u32>`. -/
structure PhysicalSize where
  width : Nat
  height : Nat
deriving DecidableEq, Repr

/-- Embeds `wgpu::SurfaceConfiguration` as built in `Client::new`. -/
structure SurfaceConfiguration where
  usage : TextureUsages
  format : TextureFormat
  width : Nat
  height : Nat
  presentMode : PresentMode
  alphaMode : AlphaMode
  viewFormats : List TextureFormat
  desiredMaximumFrameLatency : Nat
deriving DecidableEq, Repr

/-- The embedded fields of `struct Client` (src/src/client.rs lines 13-25):
`exit : bool`, `config : wgpu::SurfaceConfiguration`, `color : u32`.  See the
header comment for why the time fields and opaque GPU handles are not state
of the embedding. -/
structure ClientState where
  exit : Bool
  config : SurfaceConfiguration
  color : Nat
deriving DecidableEq, Repr

/-- Embeds `winit::event::WindowEvent` restricted to the arms
`Client::window_event` distinguishes; every other variant falls into the
wildcard arm, embedded as `other`. -/
inductive WindowEvent where
  | closeRequested
  | resized (size : PhysicalSize)
  | redrawRequested
  | other (tag : Nat)
deriving DecidableEq, Repr

/-- The clear-color selection `match self.color { ... }` in `Client::draw`
(src/src/client.rs lines 139-144). -/
def selectColor (color : Nat) : Color :=
  match color with
  | 0 => { r := 1, g := 0, b := 0, a := 1 }
  | 1 => { r := 0, g := 1, b := 0, a := 1 }
  | 2 => { r := 0, g := 0, b := 1, a := 1 }
  | _ => { r := 1, g := 0, b := 1, a := 1 }

/-- The counter advance `self.color = (self.color + 1) % 3` in `Client::draw`
(src/src/client.rs line 146). -/
def advanceColor (color : Nat) : Nat :=
  (color + 1) % 3

/-- The GPU-facing operations `Client::draw` performs, in program order, as
trace elements.  `beginRenderPass` records the clear color of its single
color attachment and the number of draw calls recorded inside the pass;
`submit` records the number of command buffers submitted. -/
inductive GpuOp where
  | acquireTexture (width height : Nat)
  | beginRenderPass (clear : Color) (drawCalls : Nat)
  | submit (commandBuffers : Nat)
  | present
deriving DecidableEq, Repr

/-- Embeds `Client::draw` (src/src/client.rs lines 132-166).  The surface's
response to `get_current_texture()` is external input, passed as `acquireOk`;
the source calls `.unwrap()` on it, so a failed acquisition panics, embedded
as `Except.error`.  On success the function returns the successor state
together with the trace of GPU operations in the order the source performs
them: acquire the surface texture (whose extent is the configured size),
record one render pass that clears to the selected color and contains no
draw calls, submit the one finished command buffer, present. -/
def draw (acquireOk : Bool) (s : ClientState) : Except String (ClientState × List GpuOp) :=
  if !acquireOk then
    Except.error "called Option::unwrap() on a None value"
  else
    let c := selectColor s.color
    Except.ok ({ s with color := advanceColor s.color },
      [GpuOp.acquireTexture s.config.width s.config.height,
       GpuOp.beginRenderPass c 0,
       GpuOp.submit 1,
       GpuOp.present])

/-- The state change of a successful `Client::draw`, together with the clear
color it used (projection of `draw` with `acquireOk = true`). -/
def drawStep (s : ClientState) : ClientState × Color :=
  ({ s with color := advanceColor s.color }, selectColor s.color)

/-- Embeds `Client::resize` (src/src/client.rs lines 180-184): overwrite the
configuration's width and height with the new physical size, then reconfigure
the surface with the updated configuration (the reconfigure is a GPU-side
effect on the surface; the resulting client state is returned). -/
def resize (size : PhysicalSize) (s : ClientState) : ClientState :=
  { s with config := { s.config with width := size.width, height := size.height } }

/-- Embeds `Client::update` (src/src/client.rs lines 122-130): the elapsed
time is computed but unused (dead state), and `event_loop.exit()` is called
exactly when the `exit` flag is set.  Returns the (unchanged) state and
whether the event loop was told to exit. -/
def update (s : ClientState) : ClientState × Bool :=
  (s, s.exit)

/-- Observable side effects of `Client::window_event` other than field
mutation: `self.draw()` (with its clear color and configured extent) and
`self.window.request_redraw()`. -/
inductive ClientAction where
  | drawFrame (clear : Color) (width height : Nat)
  | requestRedraw
  | configureSurface
deriving DecidableEq, Repr

/-- Embeds `Client::window_event` (src/src/client.rs lines 168-178):
`CloseRequested` sets the exit flag; `Resized(size)` calls `resize` (which
reconfigures the surface); `RedrawRequested` calls `self.draw()` and then
`self.window.request_redraw()`, in that order; every other event does
nothing. -/
def windowEvent (e : WindowEvent) (s : ClientState) : ClientState × List ClientAction :=
  match e with
  | WindowEvent.closeRequested => ({ s with exit := true }, [])
  | WindowEvent.resized size => (resize size s, [ClientAction.configureSurface])
  | WindowEvent.redrawRequested =>
      let (s2, c) := drawStep s
      (s2, [ClientAction.drawFrame c s.config.width s.config.height, ClientAction.requestRedraw])
  | WindowEvent.other _ => (s, [])

/-- Surface capabilities returned by `surface.get_capabilities(&adapter)`:
the supported texture formats and alpha modes. -/
structure SurfaceCaps where
  formats : List TextureFormat
  alphaModes : List AlphaMode
deriving DecidableEq, Repr

/-- The surface-format selection in `Client::new` (src/src/client.rs lines
79-86): `formats.iter().copied().find(|f| f.is_srgb()).unwrap_or(formats[0])`.
Rust evaluates `formats[0]` eagerly, panicking on an empty list, embedded as
`none`. -/
def chooseSurfaceFormat (formats : List TextureFormat) : Option TextureFormat :=
  match formats with
  | [] => none
  | f0 :: _ => some ((formats.find? (fun f => f.srgb)).getD f0)

/-- Embeds `Client::new` (src/src/client.rs lines 28-113).  The outcomes of
the external fallible calls are inputs: window creation, surface creation,
adapter request (carrying, when successful, the surface capabilities that
`get_capabilities` will report for it) and device request.  Each failure hits
the corresponding `.expect(...)` / `.unwrap()` in source order, embedded as
`Except.error` with the source's diagnostic message; indexing an empty
capability list panics likewise.  On success the constructor returns the
fully initialized client: exit flag clear, surface configured with
`RENDER_ATTACHMENT` usage, the chosen format, the window's size, `AutoVsync`,
the first supported alpha mode, no extra view formats, frame latency 2, and
color counter 0. -/
def clientNew (createWindowOk createSurfaceOk : Bool) (adapter : Option SurfaceCaps)
    (deviceOk : Bool) (size : PhysicalSize) : Except String ClientState :=
  if !createWindowOk then
    Except.error "Failed to create window"
  else if !createSurfaceOk then
    Except.error "Could not create window surface!"
  else
    match adapter with
    | none => Except.error "Could not get adapter!"
    | some caps =>
      if !deviceOk then
        Except.error "Could not get device!"
      else
        match chooseSurfaceFormat caps.formats, caps.alphaModes.head? with
        | some fmt, some am =>
            Except.ok
              { exit := false
                config :=
                  { usage := TextureUsages.renderAttachment
                    format := fmt
                    width := size.width
                    height := size.height
                    presentMode := PresentMode.autoVsync
                    alphaMode := am
                    viewFormats := []
                    desiredMaximumFrameLatency := 2 }
                color := 0 }
        | _, _ => Except.error "index out of bounds"

/-- State after `n` successful draws. -/
def drawsN (n : Nat) (s : ClientState) : ClientState :=
  match n with
  | 0 => s
  | n + 1 => drawsN n (drawStep s).1

/-- Clear colors of `n` successive successful draws, in order. -/
def drawTrace (n : Nat) (s : ClientState) : List Color :=
  match n with
  | 0 => []
  | n + 1 => (drawStep s).2 :: drawTrace n (drawStep s).1

/-- A concrete, fully successful set of constructor inputs, used to
instantiate hypotheses at concrete states. -/
def testCaps : SurfaceCaps :=
  { formats := [{ tag := 0, srgb := false }, { tag := 1, srgb := true }]
    alphaModes := [0] }

/-- The client state produced by `clientNew` on the concrete successful
inputs. -/
def testClient : ClientState :=
  { exit := false
    config :=
      { usage := TextureUsages.renderAttachment
        format := { tag := 1, srgb := true }
        width := 800
        height := 600
        presentMode := PresentMode.autoVsync
        alphaMode := 0
        viewFormats := []
        desiredMaximumFrameLatency := 2 }
    color := 0 }

example : clientNew true true (some testCaps) true { width := 800, height := 600 }
    = Except.ok testClient := rfl

/-- Clear colors of `n` successive `RedrawRequested` window events, in order:
each event contributes the clear colors of the `drawFrame` side effects its
handler emits. -/
def redrawClears (n : Nat) (s : ClientState) : List Color :=
  match n with
  | 0 => []
  | n + 1 =>
      (windowEvent WindowEvent.redrawRequested s).2.filterMap
        (fun a =>
          match a with
          | ClientAction.drawFrame c _ _ => some c
          | _ => none)
      ++ redrawClears n (windowEvent WindowEvent.redrawRequested s).1

/-- The named clear colors of the cycle. -/
def colorRed : Color := { r := 1, g := 0, b := 0, a := 1 }

def colorGreen : Color := { r := 0, g := 1, b := 0, a := 1 }

def colorBlue : Color := { r := 0, g := 0, b := 1, a := 1 }

def colorMagenta : Color := { r := 1, g := 0, b := 1, a := 1 }

/-- An event delivered to the client by the application shell: either a
window event forwarded to `Client::window_event`, or a tick of
`Client::update`. -/
inductive LoopEvent where
  | win (e : WindowEvent)
  | tick
deriving DecidableEq, Repr

/-- One shell dispatch: the successor client state and whether this dispatch
called `event_loop.exit()` (only a tick can). -/
def loopStep (ev : LoopEvent) (s : ClientState) : ClientState × Bool :=
  match ev with
  | LoopEvent.win e => ((windowEvent e s).1, false)
  | LoopEvent.tick => update s

/-- Whether any dispatch in the event sequence called `event_loop.exit()`. -/
def runExits (evs : List LoopEvent) (s : ClientState) : Bool :=
  match evs with
  | [] => false
  | ev :: rest => (loopStep ev s).2 || runExits rest (loopStep ev s).1

lemma drawStep_color (s : ClientState) : (drawStep s).1.color = (s.color + 1) % 3 := rfl

lemma drawStep_config (s : ClientState) : (drawStep s).1.config = s.config := rfl

lemma drawStep_exit (s : ClientState) : (drawStep s).1.exit = s.exit := rfl

lemma drawsN_config (n : Nat) (s : ClientState) : (drawsN n s).config = s.config := by
  induction n generalizing s with
  | zero => rfl
  | succ n ih => simpa [drawsN] using ih (drawStep s).1

lemma drawsN_color_lt (n : Nat) (s : ClientState) (h : s.color < 3) :
    (drawsN n s).color < 3 := by
  induction n generalizing s with
  | zero => exact h
  | succ n ih =>
      exact ih (drawStep s).1 (by simp [drawStep_color, Nat.mod_lt])

lemma selectColor_ne_magenta (i : Nat) (h : i < 3) : selectColor i ≠ colorMagenta := by
  interval_cases i <;> decide

lemma drawTrace_not_magenta (n : Nat) (s : ClientState) (h : s.color < 3) :
    colorMagenta ∉ drawTrace n s := by
  induction n generalizing s with
  | zero => simp [drawTrace]
  | succ n ih =>
      simp only [drawTrace, List.mem_cons, not_or]
      refine ⟨fun hc => selectColor_ne_magenta s.color h hc.symm, ?_⟩
      exact ih (drawStep s).1 (by simp [drawStep_color, Nat.mod_lt])

lemma clientNew_ok (cw cs dv : Bool) (ad : Option SurfaceCaps) (sz : PhysicalSize)
    (st : ClientState) (h : clientNew cw cs ad dv sz = Except.ok st) :
    cs = true ∧ dv = true ∧ ad.isSome ∧ st.exit = false ∧ st.color = 0 ∧
    st.config.width = sz.width ∧ st.config.height = sz.height := by
  cases cw <;> cases cs <;> cases dv <;> cases ad <;> simp [clientNew] at h
  split at h
  · injection h with h2
    subst h2
    exact ⟨rfl, rfl, rfl, rfl, rfl, rfl, rfl⟩
  · exact Except.noConfusion h

lemma drawTrace_color_zero (s : ClientState) (h : s.color = 0) :
    drawTrace 4 s = [colorRed, colorGreen, colorBlue, colorRed] := by
  obtain ⟨e, cfg, c⟩ := s
  simp only at h
  subst h
  simp [drawTrace, drawStep, selectColor, advanceColor, colorRed, colorGreen, colorBlue]

lemma redrawClears_succ (n : Nat) (s : ClientState) :
    redrawClears (n + 1) s = (drawStep s).2 :: redrawClears n (drawStep s).1 := rfl

lemma redrawClears_color_zero (s : ClientState) (h : s.color = 0) :
    redrawClears 4 s = [colorRed, colorGreen, colorBlue, colorRed] := by
  obtain ⟨e, cfg, c⟩ := s
  simp only at h
  subst h
  simp [redrawClears, windowEvent, drawStep, selectColor, advanceColor, List.filterMap,
    colorRed, colorGreen, colorBlue]

lemma windowEvent_exit (e : WindowEvent) (s : ClientState)
    (h : e ≠ WindowEvent.closeRequested) : ((windowEvent e s).1).exit = s.exit := by
  cases e with
  | closeRequested => exact absurd rfl h
  | resized sz => rfl
  | redrawRequested => rfl
  | other t => rfl

lemma runExits_no_close (evs : List LoopEvent) (s : ClientState)
    (hexit : s.exit = false)
    (hnc : LoopEvent.win WindowEvent.closeRequested ∉ evs) :
    runExits evs s = false := by
  induction evs generalizing s with
  | nil => rfl
  | cons ev rest ih =>
      simp only [List.mem_cons, not_or] at hnc
      cases ev with
      | tick =>
          simp only [runExits, loopStep, update, hexit, Bool.false_or]
          exact ih s hexit hnc.2
      | win e =>
          have hne : e ≠ WindowEvent.closeRequested := by
            intro h; exact hnc.1 (by rw [h])
          simp only [runExits, loopStep, Bool.false_or]
          exact ih _ (by rw [windowEvent_exit e s hne]; exact hexit) hnc.2

lemma find?_first_srgb (l1 l2 : List TextureFormat) (f : TextureFormat)
    (hf : f.srgb = true) (hl1 : ∀ g ∈ l1, g.srgb = false) :
    (l1 ++ f :: l2).find? (fun g => g.srgb) = some f := by
  induction l1 with
  | nil => simpa using List.find?_cons_of_pos l2 hf
  | cons g gs ih =>
      have hg : g.srgb = false := hl1 g (by simp)
      rw [List.cons_append, List.find?_cons_of_neg _ (by simp [hg])]
      exact ih fun x hx => hl1 x (by simp [hx])

/-- C1: for every color-cycle index value i in {0,1,2,3}, Draw selects the
clear color red, green, blue, magenta respectively — but the counterexample:
on the freshly initialized client (index 0) four consecutive draws leave the
index at 1, not at its starting value 0, because the advance is modulo 3,
refuting the claimed cycle length of 4. -/
theorem c1_cycle4_counterexample :
    testClient.color = 0 ∧ (drawsN 4 testClient).color = 1 ∧ (1 : Nat) ≠ 0 := by
  refine ⟨rfl, ?_, by decide⟩
  simp [drawsN, drawStep, advanceColor, testClient]

/-- C1 (amended): for every color-cycle index value i in {0,1,2,3}, Draw
selects the clear color red, green, blue, magenta respectively; the index is
advanced modulo 3, so after THREE consecutive draws an index in {0,1,2}
returns to its starting value (the cycle has length 3, not 4). -/
theorem c1_color_cycle (s : ClientState) (h : s.color < 4) :
    (drawStep s).2 = [colorRed, colorGreen, colorBlue, colorMagenta].getD s.color colorRed ∧
    (drawStep s).1.color = (s.color + 1) % 3 ∧
    (s.color < 3 → (drawsN 3 s).color = s.color) := by
  obtain ⟨e, cfg, c⟩ := s
  dsimp only at h ⊢
  interval_cases c <;>
    refine ⟨by simp [drawStep, selectColor, colorRed, colorGreen, colorBlue, colorMagenta],
      rfl, fun h3 => ?_⟩ <;>
    first
      | (simp [drawsN, drawStep, advanceColor]; done)
      | exact absurd h3 (by omega)

/-- C1 witness: the amended theorem applied at the concrete state with
index 2. -/
theorem c1_color_cycle_witness :
    (drawStep { testClient with color := 2 }).2 =
      [colorRed, colorGreen, colorBlue, colorMagenta].getD 2 colorRed ∧
    (drawsN 3 { testClient with color := 2 }).color = 2 :=
  ⟨(c1_color_cycle { testClient with color := 2 } (by norm_num)).1,
   (c1_color_cycle { testClient with color := 2 } (by norm_num)).2.2 (by norm_num)⟩

/-- C2 counterexample: on the freshly initialized client, four redraw
requests clear to red, green, blue, red — the fourth clear color is
(1,0,0,1), not the claimed (1,0,1,1). -/
theorem c2_fourth_redraw_counterexample :
    testClient.color = 0 ∧
    redrawClears 4 testClient = [colorRed, colorGreen, colorBlue, colorRed] ∧
    redrawClears 4 testClient ≠ [colorRed, colorGreen, colorBlue, colorMagenta] := by
  refine ⟨rfl, redrawClears_color_zero testClient rfl, ?_⟩
  rw [redrawClears_color_zero testClient rfl]
  decide

/-- C2 (amended): on a freshly initialized client (color-cycle index 0), a
sequence of four redraw requests produces exactly the clear colors
(1,0,0,1), (0,1,0,1), (0,0,1,1), then (1,0,0,1) again, in that order. -/
theorem c2_redraw_sequence (cw cs dv : Bool) (ad : Option SurfaceCaps)
    (sz : PhysicalSize) (st : ClientState)
    (h : clientNew cw cs ad dv sz = Except.ok st) :
    redrawClears 4 st = [colorRed, colorGreen, colorBlue, colorRed] :=
  redrawClears_color_zero st (clientNew_ok cw cs dv ad sz st h).2.2.2.2.1

/-- C2 witness: the amended theorem applied at the concrete successful
constructor run. -/
theorem c2_redraw_sequence_witness :
    redrawClears 4 testClient = [colorRed, colorGreen, colorBlue, colorRed] :=
  c2_redraw_sequence true true true (some testCaps) { width := 800, height := 600 }
    testClient rfl

/-- C3: after Resize(w,h) the surface configuration's width and height equal
exactly (w,h); every subsequent draw (no intervening resize) leaves them
unchanged and acquires its surface texture at exactly those dimensions, so
the configured dimensions never lag behind the most recent resize. -/
theorem c3_resize_dimensions (s : ClientState) (sz : PhysicalSize) (n : Nat) :
    (resize sz s).config.width = sz.width ∧
    (resize sz s).config.height = sz.height ∧
    (drawsN n (resize sz s)).config.width = sz.width ∧
    (drawsN n (resize sz s)).config.height = sz.height ∧
    draw true (drawsN n (resize sz s)) =
      Except.ok ((drawStep (drawsN n (resize sz s))).1,
        [GpuOp.acquireTexture sz.width sz.height,
         GpuOp.beginRenderPass (selectColor (drawsN n (resize sz s)).color) 0,
         GpuOp.submit 1,
         GpuOp.present]) := by
  have hc := drawsN_config n (resize sz s)
  have hw : (resize sz s).config.width = sz.width := rfl
  have hh : (resize sz s).config.height = sz.height := rfl
  refine ⟨hw, hh, ?_, ?_, ?_⟩
  · rw [hc, hw]
  · rw [hc, hh]
  · have hw2 : (drawsN n (resize sz s)).config.width = sz.width := by rw [hc, hw]
    have hh2 : (drawsN n (resize sz s)).config.height = sz.height := by rw [hc, hh]
    simp [draw, drawStep, hw2, hh2]

/-- C4: a close-requested event followed by a tick terminates the event
loop, and an event sequence containing no close-requested event never has a
tick terminate the loop (starting from a client whose exit flag is clear,
as a freshly initialized one is). -/
theorem c4_close_then_tick (s : ClientState) (evs : List LoopEvent)
    (hexit : s.exit = false)
    (hnc : LoopEvent.win WindowEvent.closeRequested ∉ evs) :
    (update (windowEvent WindowEvent.closeRequested s).1).2 = true ∧
    runExits evs s = false :=
  ⟨rfl, runExits_no_close evs s hexit hnc⟩

/-- C4 witness: the theorem applied at the concrete fresh client and a
concrete close-free event sequence. -/
theorem c4_close_then_tick_witness :
    (update (windowEvent WindowEvent.closeRequested testClient).1).2 = true ∧
    runExits [LoopEvent.tick, LoopEvent.win WindowEvent.redrawRequested, LoopEvent.tick]
      testClient = false :=
  c4_close_then_tick testClient
    [LoopEvent.tick, LoopEvent.win WindowEvent.redrawRequested, LoopEvent.tick]
    rfl (by decide)

/-- C5: if the surface, the adapter or the device is unavailable during
initialization, the constructor aborts with a diagnostic (an error result,
the embedding of the process-aborting `.expect`); and whenever the
constructor returns a client, every prerequisite was available and the
client is fully constructed (exit flag clear, color counter 0, configured
to the window size). -/
theorem c5_init_failure_aborts (cw cs dv : Bool) (ad : Option SurfaceCaps)
    (sz : PhysicalSize) :
    ((ad = none ∨ cs = false ∨ dv = false) →
      ∃ msg, clientNew cw cs ad dv sz = Except.error msg) ∧
    (∀ st, clientNew cw cs ad dv sz = Except.ok st →
      cs = true ∧ dv = true ∧ ad.isSome ∧ st.exit = false ∧ st.color = 0 ∧
      st.config.width = sz.width ∧ st.config.height = sz.height) := by
  constructor
  · intro hfail
    cases hok : clientNew cw cs ad dv sz with
    | error msg => exact ⟨msg, rfl⟩
    | ok st =>
        have h := clientNew_ok cw cs dv ad sz st hok
        exfalso
        rcases hfail with h1 | h1 | h1 <;> subst h1 <;> simp at h
  · exact fun st hok => clientNew_ok cw cs dv ad sz st hok

/-- C5 witness: the theorem applied with no adapter available (first part)
and at the concrete successful run (second part). -/
theorem c5_init_failure_aborts_witness :
    (∃ msg, clientNew true true none true { width := 640, height := 480 }
      = Except.error msg) ∧
    testClient.exit = false ∧ testClient.color = 0 := by
  refine ⟨(c5_init_failure_aborts true true true none
    { width := 640, height := 480 }).1 (Or.inl rfl), ?_, ?_⟩
  · exact ((c5_init_failure_aborts true true true (some testCaps)
      { width := 800, height := 600 }).2 testClient rfl).2.2.2.1
  · exact ((c5_init_failure_aborts true true true (some testCaps)
      { width := 800, height := 600 }).2 testClient rfl).2.2.2.2.1

/-- C6: the handler of a redraw-requested event draws exactly one frame and
then requests the next redraw, in that order (its side-effect list is
exactly one drawFrame followed by one requestRedraw); no other event kind
triggers a draw or a redraw request. -/
theorem c6_redraw_chain (e : WindowEvent) (s : ClientState) :
    (windowEvent WindowEvent.redrawRequested s).2 =
      [ClientAction.drawFrame (selectColor s.color) s.config.width s.config.height,
       ClientAction.requestRedraw] ∧
    (e ≠ WindowEvent.redrawRequested →
      (∀ c w h, ClientAction.drawFrame c w h ∉ (windowEvent e s).2) ∧
      ClientAction.requestRedraw ∉ (windowEvent e s).2) := by
  refine ⟨rfl, fun he => ?_⟩
  cases e with
  | closeRequested => exact ⟨fun c w h => by simp [windowEvent], by simp [windowEvent]⟩
  | resized sz => exact ⟨fun c w h => by simp [windowEvent], by simp [windowEvent]⟩
  | redrawRequested => exact absurd rfl he
  | other t => exact ⟨fun c w h => by simp [windowEvent], by simp [windowEvent]⟩

/-- C6 witness: the theorem applied at a close-requested event on the
concrete fresh client. -/
theorem c6_redraw_chain_witness :
    (windowEvent WindowEvent.redrawRequested testClient).2 =
      [ClientAction.drawFrame (selectColor testClient.color)
        testClient.config.width testClient.config.height,
       ClientAction.requestRedraw] ∧
    ClientAction.requestRedraw ∉ (windowEvent WindowEvent.closeRequested testClient).2 :=
  ⟨(c6_redraw_chain WindowEvent.closeRequested testClient).1,
   ((c6_redraw_chain WindowEvent.closeRequested testClient).2 (by decide)).2⟩

/-- C7: every call to Draw proceeds in this order: acquire the next
presentable texture from the surface, record one render pass that clears the
frame to the current cycle color with no draw calls, submit the single
command buffer, present the acquired texture; a texture-acquisition failure
is not handled and aborts (the `.unwrap()` panic, embedded as the error
result). -/
theorem c7_draw_order (s : ClientState) :
    draw true s =
      Except.ok ({ s with color := (s.color + 1) % 3 },
        [GpuOp.acquireTexture s.config.width s.config.height,
         GpuOp.beginRenderPass (selectColor s.color) 0,
         GpuOp.submit 1,
         GpuOp.present]) ∧
    draw false s = Except.error "called Option::unwrap() on a None value" :=
  ⟨rfl, rfl⟩

/-- C8: the surface format chosen at initialization is the first sRGB format
among the supported formats when one exists, and otherwise the first
supported format. -/
theorem c8_format_selection (formats : List TextureFormat) (hne : formats ≠ []) :
    ((∀ f ∈ formats, f.srgb = false) → chooseSurfaceFormat formats = formats.head?) ∧
    (∀ l1 f l2, formats = l1 ++ f :: l2 → f.srgb = true →
      (∀ g ∈ l1, g.srgb = false) → chooseSurfaceFormat formats = some f) := by
  constructor
  · intro hall
    rcases formats with _ | ⟨f0, rest⟩
    · exact absurd rfl hne
    · have hfind : (f0 :: rest).find? (fun g => g.srgb) = none :=
        List.find?_eq_none.mpr fun x hx => by simp [hall x hx]
      simp [chooseSurfaceFormat, hfind]
  · intro l1 f l2 hsplit hf hl1
    have hfind : formats.find? (fun g => g.srgb) = some f := by
      rw [hsplit]
      exact find?_first_srgb l1 l2 f hf hl1
    rcases formats with _ | ⟨f0, rest⟩
    · exact absurd rfl hne
    · simp [chooseSurfaceFormat, hfind]

/-- C8 witness: the theorem applied at a concrete format list whose first
sRGB entry is in second position. -/
theorem c8_format_selection_witness :
    chooseSurfaceFormat
      [{ tag := 0, srgb := false }, { tag := 1, srgb := true }, { tag := 2, srgb := true }] =
      some { tag := 1, srgb := true } :=
  (c8_format_selection
      [{ tag := 0, srgb := false }, { tag := 1, srgb := true }, { tag := 2, srgb := true }]
      (by decide)).2
    [{ tag := 0, srgb := false }] { tag := 1, srgb := true } [{ tag := 2, srgb := true }]
    rfl rfl (by decide)

/-- C9: a resize modifies only the width and height of the surface
configuration, keeping format, presentation mode, usage, alpha mode,
view formats and frame latency; and no other operation (draw, update, or a
window event other than a resize) mutates the surface configuration. -/
theorem c9_config_mutation (s : ClientState) (sz : PhysicalSize) (e : WindowEvent) :
    (resize sz s).config = { s.config with width := sz.width, height := sz.height } ∧
    (resize sz s).config.format = s.config.format ∧
    (resize sz s).config.presentMode = s.config.presentMode ∧
    (resize sz s).config.usage = s.config.usage ∧
    (resize sz s).config.alphaMode = s.config.alphaMode ∧
    (resize sz s).config.viewFormats = s.config.viewFormats ∧
    (resize sz s).config.desiredMaximumFrameLatency = s.config.desiredMaximumFrameLatency ∧
    (drawStep s).1.config = s.config ∧
    (update s).1.config = s.config ∧
    ((∀ sz2, e ≠ WindowEvent.resized sz2) → (windowEvent e s).1.config = s.config) := by
  refine ⟨rfl, rfl, rfl, rfl, rfl, rfl, rfl, rfl, rfl, fun hne => ?_⟩
  cases e with
  | closeRequested => rfl
  | resized sz2 => exact absurd rfl (hne sz2)
  | redrawRequested => rfl
  | other t => rfl

/-- C9 witness: the theorem applied at a concrete resize and a concrete
non-resize event. -/
theorem c9_config_mutation_witness :
    (resize { width := 320, height := 200 } testClient).config =
      { testClient.config with width := 320, height := 200 } ∧
    (windowEvent WindowEvent.closeRequested testClient).1.config = testClient.config :=
  ⟨(c9_config_mutation testClient { width := 320, height := 200 }
      WindowEvent.closeRequested).1,
   (c9_config_mutation testClient { width := 320, height := 200 }
      WindowEvent.closeRequested).2.2.2.2.2.2.2.2.2
     fun _ h => WindowEvent.noConfusion h⟩

/-- C10: starting from a freshly initialized client, the color-cycle counter
only ever takes values in {0,1,2} (the advance is modulo 3), so the fourth
match branch is unreachable and the magenta clear color is never produced by
any sequence of draws. -/
theorem c10_magenta_unreachable (cw cs dv : Bool) (ad : Option SurfaceCaps)
    (sz : PhysicalSize) (st : ClientState)
    (h : clientNew cw cs ad dv sz = Except.ok st) (n : Nat) :
    (drawsN n st).color < 3 ∧
    (drawStep (drawsN n st)).1.color = ((drawsN n st).color + 1) % 3 ∧
    colorMagenta ∉ drawTrace n st := by
  have h0 : st.color = 0 := (clientNew_ok cw cs dv ad sz st h).2.2.2.2.1
  have hlt : st.color < 3 := by omega
  exact ⟨drawsN_color_lt n st hlt, rfl, drawTrace_not_magenta n st hlt⟩

/-- C10 witness: the theorem applied at the concrete successful constructor
run and seven draws. -/
theorem c10_magenta_unreachable_witness :
    (drawsN 7 testClient).color < 3 ∧ colorMagenta ∉ drawTrace 7 testClient :=
  ⟨(c10_magenta_unreachable true true true (some testCaps)
      { width := 800, height := 600 } testClient rfl 7).1,
   (c10_magenta_unreachable true true true (some testCaps)
      { width := 800, height := 600 } testClient rfl 7).2.2⟩
